import Mathlib

/-!
Verification of the cinder::log logging facility (src/include/cinder/Log.h).

The data model and the operations defined in the header are embedded
directly from the source.  Operations that the header only declares
(their bodies are in the accompanying translation unit, which is not part
of this repository slice) are modelled from the specification; each such
definition carries a doc comment starting with `Modelled from the spec:`.
-/

namespace CinderLog

/-- Severity enumeration, from the `Level` typedef enum in Log.h
(LEVEL_VERBOSE .. LEVEL_FATAL, underlying values 0..4). -/
inductive Level where
  | LEVEL_VERBOSE
  | LEVEL_INFO
  | LEVEL_WARNING
  | LEVEL_ERROR
  | LEVEL_FATAL
deriving DecidableEq, Repr

/-- Underlying integer value of the C enum (declaration order, starting at 0). -/
def Level.toNat : Level → Nat
  | .LEVEL_VERBOSE => 0
  | .LEVEL_INFO    => 1
  | .LEVEL_WARNING => 2
  | .LEVEL_ERROR   => 3
  | .LEVEL_FATAL   => 4

/-- Call-site descriptor, from `struct Location` in Log.h. -/
structure Location where
  mFunctionName : String
  mFileName : String
  mLineNumber : Nat
deriving DecidableEq, Repr

/-- Event metadata, from `struct Metadata` in Log.h. -/
structure Metadata where
  mLevel : Level
  mLocation : Location
deriving DecidableEq, Repr

/-- One dispatch to the active sink: the arguments of a
`Logger::write( meta, text )` call. -/
abbrev Dispatch := Metadata × String

/-- Scoped log-event accumulator, from `struct Entry` in Log.h.
`mStream` holds the text accumulated by `operator<<` (the `std::stringstream`
contents); values are already rendered to text, since textual rendering of a
streamed value is an external collaborator. -/
structure Entry where
  mMetaData : Metadata
  mHasContent : Bool
  mStream : String
deriving DecidableEq, Repr

/-- The `Entry( Level level, const Location &location )` constructor:
captures level and location, `mHasContent( false )`, empty stream. -/
def Entry.make (level : Level) (location : Location) : Entry :=
  { mMetaData := { mLevel := level, mLocation := location }
  , mHasContent := false
  , mStream := "" }

/-- `Entry::operator<<`: sets `mHasContent = true` and appends the rendered
value to the stream, returning the updated entry. -/
def Entry.stream (e : Entry) (rhs : String) : Entry :=
  { e with mHasContent := true, mStream := e.mStream ++ rhs }

/-- Stream a sequence of (already rendered) values into an entry, left to right. -/
def Entry.streamAll (e : Entry) (vs : List String) : Entry :=
  vs.foldl Entry.stream e

/-- `Entry::writeToLog`: one call
`manager()->getLogger()->write( mMetaData, mStream.str() )`. -/
def Entry.writeToLog (e : Entry) : List Dispatch :=
  [(e.mMetaData, e.mStream)]

/-- `Entry::~Entry`: on destruction, `if( mHasContent ) writeToLog();`.
The result is the list of dispatches performed to the active sink. -/
def Entry.destruct (e : Entry) : List Dispatch :=
  if e.mHasContent then e.writeToLog else []

theorem Entry.streamAll_nil (e : Entry) : e.streamAll [] = e := rfl

theorem Entry.streamAll_cons (e : Entry) (v : String) (vs : List String) :
    e.streamAll (v :: vs) = (e.stream v).streamAll vs := rfl

theorem Entry.streamAll_hasContent (e : Entry) (vs : List String) :
    (e.streamAll vs).mHasContent = (e.mHasContent || !vs.isEmpty) := by
  induction vs generalizing e with
  | nil => simp [Entry.streamAll]
  | cons v vs ih =>
      rw [Entry.streamAll_cons, ih]
      simp [Entry.stream]

theorem Entry.streamAll_metaData (e : Entry) (vs : List String) :
    (e.streamAll vs).mMetaData = e.mMetaData := by
  induction vs generalizing e with
  | nil => rfl
  | cons v vs ih =>
      rw [Entry.streamAll_cons, ih]
      rfl

theorem Entry.streamAll_mStream (e : Entry) (vs : List String) :
    (e.streamAll vs).mStream = vs.foldl (fun a s => a ++ s) e.mStream := by
  induction vs generalizing e with
  | nil => rfl
  | cons v vs ih =>
      rw [Entry.streamAll_cons, ih]
      rfl

theorem foldl_append_all_empty (vs : List String) (acc : String)
    (hall : ∀ s ∈ vs, s = "") :
    vs.foldl (fun a s => a ++ s) acc = acc := by
  induction vs generalizing acc with
  | nil => rfl
  | cons v vs ih =>
      have hv : v = "" := hall v (List.mem_cons_self v vs)
      have hrest : ∀ s ∈ vs, s = "" := fun s hs => hall s (List.mem_cons_of_mem v hs)
      simp [List.foldl_cons, hv, ih _ hrest]

/-- C1: an Entry constructed with a level and location performs, on
destruction, exactly one dispatch to the active sink when at least one value
was streamed into it, and zero dispatches when nothing was streamed. -/
theorem entry_dispatch_count (level : Level) (location : Location)
    (vs : List String) :
    ((Entry.make level location).streamAll vs).destruct.length =
      if vs.isEmpty then 0 else 1 := by
  cases vs with
  | nil => simp [Entry.destruct, Entry.streamAll, Entry.make]
  | cons v vs =>
      have h : ((Entry.make level location).streamAll (v :: vs)).mHasContent = true := by
        rw [Entry.streamAll_hasContent]
        simp [Entry.make]
      simp [Entry.destruct, h, Entry.writeToLog]

/-- C9: streaming only values that render to empty text still marks the
Entry as having content: on destruction it performs exactly one dispatch,
carrying the (empty) accumulated text — the has-content flag tracks stream
operations, not buffer non-emptiness. -/
theorem entry_dispatch_empty_values (level : Level) (location : Location)
    (vs : List String) (hne : vs ≠ []) (hall : ∀ s ∈ vs, s = "") :
    ((Entry.make level location).streamAll vs).destruct =
      [({ mLevel := level, mLocation := location }, "")] := by
  have hc : ((Entry.make level location).streamAll vs).mHasContent = true := by
    rw [Entry.streamAll_hasContent]
    cases vs with
    | nil => exact absurd rfl hne
    | cons v vs => simp [Entry.make]
  have hm := Entry.streamAll_metaData (Entry.make level location) vs
  have hs := Entry.streamAll_mStream (Entry.make level location) vs
  rw [foldl_append_all_empty vs _ hall] at hs
  rw [Entry.destruct, if_pos hc, Entry.writeToLog, hm, hs]
  rfl

/-- Witness for `entry_dispatch_empty_values` at a concrete input. -/
theorem entry_dispatch_empty_values_witness :
    ([""] : List String) ≠ [] ∧
    ((Entry.make Level.LEVEL_INFO ⟨"fn", "file.cpp", 3⟩).streamAll [""]).destruct =
      [({ mLevel := Level.LEVEL_INFO
        , mLocation := ⟨"fn", "file.cpp", 3⟩ }, "")] :=
  ⟨by decide,
   entry_dispatch_empty_values Level.LEVEL_INFO ⟨"fn", "file.cpp", 3⟩ [""]
     (by decide) (by decide)⟩

/-! Call-site macro surface, from the bottom of Log.h.  Each `CI_LOG_x`
macro is a function of the value `k` of `CI_MAX_LOG_LEVEL`: when the
controlling `#if( CI_MAX_LOG_LEVEL >= n )` holds it expands to
`CINDER_LOG_STREAM( level, stream )`, i.e. to an Entry construction with the
streamed value; otherwise it expands to `((void)0)`, modelled as `none`. -/

/-- `CINDER_LOG_STREAM( level, stream )`: constructs an
`::cinder::log::Entry( level, Location(...) )` and streams `stream` into it. -/
def CINDER_LOG_STREAM (level : Level) (loc : Location) (s : String) : Entry :=
  (Entry.make level loc).stream s

/-- `CI_LOG_V`: an Entry construction when `CI_MAX_LOG_LEVEL >= 5`, else a no-op. -/
def CI_LOG_V (k : Nat) (loc : Location) (s : String) : Option Entry :=
  if 5 ≤ k then some (CINDER_LOG_STREAM Level.LEVEL_VERBOSE loc s) else none

/-- `CI_LOG_I`: an Entry construction when `CI_MAX_LOG_LEVEL >= 4`, else a no-op. -/
def CI_LOG_I (k : Nat) (loc : Location) (s : String) : Option Entry :=
  if 4 ≤ k then some (CINDER_LOG_STREAM Level.LEVEL_INFO loc s) else none

/-- `CI_LOG_W`: an Entry construction when `CI_MAX_LOG_LEVEL >= 3`, else a no-op. -/
def CI_LOG_W (k : Nat) (loc : Location) (s : String) : Option Entry :=
  if 3 ≤ k then some (CINDER_LOG_STREAM Level.LEVEL_WARNING loc s) else none

/-- `CI_LOG_E`: an Entry construction when `CI_MAX_LOG_LEVEL >= 2`, else a no-op. -/
def CI_LOG_E (k : Nat) (loc : Location) (s : String) : Option Entry :=
  if 2 ≤ k then some (CINDER_LOG_STREAM Level.LEVEL_ERROR loc s) else none

/-- `CI_LOG_F`: an Entry construction when `CI_MAX_LOG_LEVEL >= 1`, else a no-op. -/
def CI_LOG_F (k : Nat) (loc : Location) (s : String) : Option Entry :=
  if 1 ≤ k then some (CINDER_LOG_STREAM Level.LEVEL_FATAL loc s) else none

/-- Whether the entry point for a given severity expands to an Entry
construction (true) rather than a no-op (false), at `CI_MAX_LOG_LEVEL = k`. -/
def entryPointActive (k : Nat) (loc : Location) (s : String) : Level → Bool
  | .LEVEL_VERBOSE => (CI_LOG_V k loc s).isSome
  | .LEVEL_INFO    => (CI_LOG_I k loc s).isSome
  | .LEVEL_WARNING => (CI_LOG_W k loc s).isSome
  | .LEVEL_ERROR   => (CI_LOG_E k loc s).isSome
  | .LEVEL_FATAL   => (CI_LOG_F k loc s).isSome

/-- The five entry points ordered from most to least severe. -/
def severityOrder : List Level :=
  [Level.LEVEL_FATAL, Level.LEVEL_ERROR, Level.LEVEL_WARNING,
   Level.LEVEL_INFO, Level.LEVEL_VERBOSE]

/-- The `#if` threshold controlling each entry point in Log.h. -/
def levelThreshold : Level → Nat
  | .LEVEL_VERBOSE => 5
  | .LEVEL_INFO    => 4
  | .LEVEL_WARNING => 3
  | .LEVEL_ERROR   => 2
  | .LEVEL_FATAL   => 1

theorem entryPointActive_eq (k : Nat) (loc : Location) (s : String) :
    ∀ l : Level, entryPointActive k loc s l = decide (levelThreshold l ≤ k) := by
  intro l
  cases l <;>
    simp only [entryPointActive, levelThreshold, CI_LOG_V, CI_LOG_I, CI_LOG_W,
      CI_LOG_E, CI_LOG_F] <;>
    split <;> simp_all

/-- C3: for every value k of CI_MAX_LOG_LEVEL in 0..5, exactly the k most
severe of the five entry points (FATAL first, then ERROR, WARNING, INFO,
VERBOSE) expand to an Entry construction and the rest to a no-op; k = 0
disables all five, k = 5 enables all five including verbose. -/
theorem ci_log_level_gating (k : Nat) (loc : Location) (s : String)
    (hk : k ≤ 5) :
    severityOrder.filter (entryPointActive k loc s) = severityOrder.take k := by
  have hfun : entryPointActive k loc s = fun l => decide (levelThreshold l ≤ k) :=
    funext (entryPointActive_eq k loc s)
  rw [hfun]
  interval_cases k <;> decide

/-- Witness for `ci_log_level_gating` at k = 2: only FATAL and ERROR active. -/
theorem ci_log_level_gating_witness :
    (2 : Nat) ≤ 5 ∧
    severityOrder.filter (entryPointActive 2 ⟨"fn", "file.cpp", 3⟩ "msg") =
      severityOrder.take 2 :=
  ⟨by decide, ci_log_level_gating 2 ⟨"fn", "file.cpp", 3⟩ "msg" (by decide)⟩

/-- Default value of `CI_MAX_LOG_LEVEL` when the build does not define it,
from the `#if ! defined( CI_MAX_LOG_LEVEL )` block: 5 when `NDEBUG` is not
defined (debug), 4 otherwise (release). -/
def CI_MAX_LOG_LEVEL_default (ndebugDefined : Bool) : Nat :=
  if ndebugDefined then 4 else 5

/-- C10: with CI_MAX_LOG_LEVEL left undefined, debug builds (NDEBUG
undefined) default to 5 so all five entry points are active, and release
builds default to 4 so CI_LOG_V is a no-op while INFO and above remain
active. -/
theorem ci_max_log_level_defaults (loc : Location) (s : String) :
    CI_MAX_LOG_LEVEL_default false = 5 ∧
    CI_MAX_LOG_LEVEL_default true = 4 ∧
    (CI_LOG_V (CI_MAX_LOG_LEVEL_default true) loc s) = none ∧
    (CI_LOG_I (CI_MAX_LOG_LEVEL_default true) loc s).isSome = true ∧
    (CI_LOG_W (CI_MAX_LOG_LEVEL_default true) loc s).isSome = true ∧
    (CI_LOG_E (CI_MAX_LOG_LEVEL_default true) loc s).isSome = true ∧
    (CI_LOG_F (CI_MAX_LOG_LEVEL_default true) loc s).isSome = true ∧
    (CI_LOG_V (CI_MAX_LOG_LEVEL_default false) loc s).isSome = true ∧
    (CI_LOG_I (CI_MAX_LOG_LEVEL_default false) loc s).isSome = true ∧
    (CI_LOG_W (CI_MAX_LOG_LEVEL_default false) loc s).isSome = true ∧
    (CI_LOG_E (CI_MAX_LOG_LEVEL_default false) loc s).isSome = true ∧
    (CI_LOG_F (CI_MAX_LOG_LEVEL_default false) loc s).isSome = true := by
  refine ⟨rfl, rfl, ?_, ?_, ?_, ?_, ?_, ?_, ?_, ?_, ?_, ?_⟩ <;>
    simp [CI_LOG_V, CI_LOG_I, CI_LOG_W, CI_LOG_E, CI_LOG_F,
      CI_MAX_LOG_LEVEL_default]

/-! LoggerBreakpoint.  The class (trigger level, setter/getter) is in the
header; the body of its `write` override is in the translation unit, which
is not part of this repository slice. -/

/-- Result of one `LoggerBreakpoint::write` call: whether a debugger
breakpoint was signalled, and the persistent output produced (lines). -/
structure BreakpointWriteResult where
  breakpointSignalled : Bool
  persistentOutput : List String
deriving DecidableEq, Repr

/-- Modelled from the spec: the body of `LoggerBreakpoint::write` is not in
the header.  Per the spec it performs no persistent output and signals a
debugger-attach breakpoint exactly when `meta.level >= triggerLevel`. -/
def LoggerBreakpoint.write (mTriggerLevel : Level) (meta : Metadata)
    (_text : String) : BreakpointWriteResult :=
  { breakpointSignalled := decide (mTriggerLevel.toNat ≤ meta.mLevel.toNat)
  , persistentOutput := [] }

/-- C2: with trigger level S2, a write at S1 < S2 does not signal a
breakpoint, a write at any S3 >= S2 does, and no persistent output is
produced in either case. -/
theorem loggerBreakpoint_threshold (s1 s2 s3 : Level) (loc : Location)
    (t : String) (h12 : s1.toNat < s2.toNat) (h23 : s2.toNat ≤ s3.toNat) :
    (LoggerBreakpoint.write s2 { mLevel := s1, mLocation := loc } t).breakpointSignalled = false ∧
    (LoggerBreakpoint.write s2 { mLevel := s3, mLocation := loc } t).breakpointSignalled = true ∧
    (LoggerBreakpoint.write s2 { mLevel := s1, mLocation := loc } t).persistentOutput = [] ∧
    (LoggerBreakpoint.write s2 { mLevel := s3, mLocation := loc } t).persistentOutput = [] := by
  refine ⟨?_, ?_, rfl, rfl⟩ <;>
    simp only [LoggerBreakpoint.write, decide_eq_false_iff_not, decide_eq_true_eq] <;>
    omega

/-- Witness for `loggerBreakpoint_threshold`: trigger ERROR, a WARNING write
does not signal, a FATAL write does. -/
theorem loggerBreakpoint_threshold_witness :
    Level.LEVEL_WARNING.toNat < Level.LEVEL_ERROR.toNat ∧
    Level.LEVEL_ERROR.toNat ≤ Level.LEVEL_FATAL.toNat ∧
    ((LoggerBreakpoint.write Level.LEVEL_ERROR
        { mLevel := Level.LEVEL_WARNING, mLocation := ⟨"fn", "file.cpp", 3⟩ }
        "boom").breakpointSignalled = false ∧
     (LoggerBreakpoint.write Level.LEVEL_ERROR
        { mLevel := Level.LEVEL_FATAL, mLocation := ⟨"fn", "file.cpp", 3⟩ }
        "boom").breakpointSignalled = true ∧
     (LoggerBreakpoint.write Level.LEVEL_ERROR
        { mLevel := Level.LEVEL_WARNING, mLocation := ⟨"fn", "file.cpp", 3⟩ }
        "boom").persistentOutput = [] ∧
     (LoggerBreakpoint.write Level.LEVEL_ERROR
        { mLevel := Level.LEVEL_FATAL, mLocation := ⟨"fn", "file.cpp", 3⟩ }
        "boom").persistentOutput = []) :=
  ⟨by decide, by decide,
   loggerBreakpoint_threshold Level.LEVEL_WARNING Level.LEVEL_ERROR
     Level.LEVEL_FATAL ⟨"fn", "file.cpp", 3⟩ "boom" (by decide) (by decide)⟩

/-! LoggerImplMulti.  The class is only forward-declared in the header; its
definition lives in the translation unit, which is not part of this
repository slice. -/

/-- A child sink of the multiplexing logger, with an identity and a flag
saying whether its `write` fails (e.g. an I/O error). -/
structure ChildSink where
  id : Nat
  failsOnWrite : Bool
deriving DecidableEq, Repr

/-- One child's `write`: fails when the sink is broken, succeeds otherwise. -/
def ChildSink.write (c : ChildSink) (_meta : Metadata) (_text : String) :
    Except String Unit :=
  if c.failsOnWrite then Except.error "write failure" else Except.ok ()

/-- Modelled from the spec: `LoggerImplMulti::write` is not in the header.
Per the spec it iterates its ordered children in insertion order and calls
`write` on each, swallowing any one child's failure and continuing with the
rest.  The result records every attempted child write, in order, with the
child's identity and its outcome. -/
def LoggerImplMulti.write (mLoggers : List ChildSink) (meta : Metadata)
    (text : String) : List (Nat × Except String Unit) :=
  match mLoggers with
  | [] => []
  | c :: rest => (c.id, c.write meta text) :: LoggerImplMulti.write rest meta text

/-- C4: a multi-sink write with N children attempts a write on every child
in insertion order; a failure of any child's write does not prevent the
write from being attempted on all remaining children. -/
theorem loggerImplMulti_write_all_children (mLoggers : List ChildSink)
    (meta : Metadata) (text : String) :
    (LoggerImplMulti.write mLoggers meta text).map Prod.fst =
      mLoggers.map ChildSink.id ∧
    (LoggerImplMulti.write mLoggers meta text).length = mLoggers.length := by
  induction mLoggers with
  | nil => exact ⟨rfl, rfl⟩
  | cons c rest ih =>
      refine ⟨?_, ?_⟩ <;>
        simp only [LoggerImplMulti.write, List.map_cons, List.length_cons,
          ih.1, ih.2]

/-! LogManager.  The class declaration (flags, accessors) is in the header;
the method bodies are in the translation unit, which is not part of this
repository slice, so the state transitions are modelled from the spec. -/

/-- A sink installed in the manager's active chain, identified by kind (and
an id for externally supplied sinks, standing for pointer identity). -/
inductive Sink where
  | console : Sink
  | file : String → Sink
  | breakpoint : Level → Sink
  | syslog : Sink
  | custom : Nat → Sink
deriving DecidableEq, Repr

/-- The manager's observable state: the children of the active multi-sink
(`mLoggerMulti`), and the flags declared in the header. -/
structure LogManager where
  chain : List Sink
  mConsoleLoggingEnabled : Bool
  mFileLoggingEnabled : Bool
  mSystemLoggingEnabled : Bool
  mBreakOnLogEnabled : Bool
  mSystemLoggingLevel : Level
deriving DecidableEq, Repr

/-- Modelled from the spec: `LogManager::getAllLoggers` returns a vector of
all current loggers, i.e. the children of the active multi-sink. -/
def LogManager.getAllLoggers (m : LogManager) : List Sink :=
  m.chain

/-- Modelled from the spec: `LogManager::resetLogger` replaces the entire
active chain with a multi-sink containing only the given logger and
invalidates the built-in enabled flags. -/
def LogManager.resetLogger (m : LogManager) (logger : Sink) : LogManager :=
  { m with chain := [logger]
         , mConsoleLoggingEnabled := false
         , mFileLoggingEnabled := false
         , mSystemLoggingEnabled := false
         , mBreakOnLogEnabled := false }

/-- Modelled from the spec: `LogManager::addLogger` appends to the active
multi-sink's children. -/
def LogManager.addLogger (m : LogManager) (logger : Sink) : LogManager :=
  { m with chain := m.chain ++ [logger] }

/-- Modelled from the spec: `LogManager::removeLogger` erases the logger
from the chain by identity, a no-op when not present. -/
def LogManager.removeLogger (m : LogManager) (logger : Sink) : LogManager :=
  { m with chain := m.chain.erase logger }

/-- Modelled from the spec: `LogManager::enableConsoleLogging` is
idempotent — when already enabled it does nothing; otherwise it adds a
Console sink instance and sets the `consoleEnabled` flag. -/
def LogManager.enableConsoleLogging (m : LogManager) : LogManager :=
  if m.mConsoleLoggingEnabled then m
  else { (m.addLogger Sink.console) with mConsoleLoggingEnabled := true }

/-- Modelled from the spec: `LogManager::disableConsoleLogging` is
idempotent — when not enabled it does nothing; otherwise it removes the
Console sink instance and clears the `consoleEnabled` flag. -/
def LogManager.disableConsoleLogging (m : LogManager) : LogManager :=
  if m.mConsoleLoggingEnabled then
    { (m.removeLogger Sink.console) with mConsoleLoggingEnabled := false }
  else m

/-- Modelled from the spec: `LogManager::restoreToDefault` returns the
manager to its just-constructed state — it empties the chain, clears every
flag and the system logging level, then enables console logging. -/
def LogManager.restoreToDefault (_m : LogManager) : LogManager :=
  LogManager.enableConsoleLogging
    { chain := []
    , mConsoleLoggingEnabled := false
    , mFileLoggingEnabled := false
    , mSystemLoggingEnabled := false
    , mBreakOnLogEnabled := false
    , mSystemLoggingLevel := Level.LEVEL_VERBOSE }

/-- C5: enableConsoleLogging is idempotent — from a state with console
logging off and no Console sink installed, calling it twice leaves exactly
one Console sink in the active chain and the flag true; and
disableConsoleLogging when console logging was never enabled is a no-op. -/
theorem console_logging_idempotent (m : LogManager)
    (hflag : m.mConsoleLoggingEnabled = false)
    (hchain : Sink.console ∉ m.chain) :
    ((m.enableConsoleLogging.enableConsoleLogging).chain.count Sink.console = 1 ∧
     (m.enableConsoleLogging.enableConsoleLogging).mConsoleLoggingEnabled = true) ∧
    m.disableConsoleLogging = m := by
  have h1 : m.enableConsoleLogging =
      { (m.addLogger Sink.console) with mConsoleLoggingEnabled := true } := by
    rw [LogManager.enableConsoleLogging, if_neg]
    simp [hflag]
  refine ⟨?_, ?_⟩
  · rw [h1, LogManager.enableConsoleLogging, if_pos rfl]
    refine ⟨?_, rfl⟩
    simp [LogManager.addLogger, List.count_append,
      List.count_eq_zero_of_not_mem hchain]
  · rw [LogManager.disableConsoleLogging, if_neg]
    simp [hflag]

/-- A concrete manager state with console logging off and no Console sink,
used to exercise the console-logging transitions. -/
def sampleManager : LogManager :=
  { chain := [Sink.custom 7]
  , mConsoleLoggingEnabled := false
  , mFileLoggingEnabled := true
  , mSystemLoggingEnabled := false
  , mBreakOnLogEnabled := false
  , mSystemLoggingLevel := Level.LEVEL_VERBOSE }

/-- Witness for `console_logging_idempotent` at a concrete starting state. -/
theorem console_logging_idempotent_witness :
    sampleManager.mConsoleLoggingEnabled = false ∧
    Sink.console ∉ sampleManager.chain ∧
    (((sampleManager.enableConsoleLogging.enableConsoleLogging).chain.count
        Sink.console = 1 ∧
      (sampleManager.enableConsoleLogging.enableConsoleLogging).mConsoleLoggingEnabled
        = true) ∧
     sampleManager.disableConsoleLogging = sampleManager) :=
  ⟨rfl, by decide,
   console_logging_idempotent sampleManager rfl (by decide)⟩

/-- C6: after resetLogger(X) the active chain contains only X, and
getAllLoggers returns a collection of exactly one sink, equal to X. -/
theorem resetLogger_getAllLoggers (m : LogManager) (x : Sink) :
    (m.resetLogger x).getAllLoggers = [x] ∧
    (m.resetLogger x).getAllLoggers.length = 1 := by
  exact ⟨rfl, rfl⟩

/-- C7: after restoreToDefault the manager is in its just-constructed
state — console logging enabled; file, system and break-on-log all
disabled — regardless of the state before the call. -/
theorem restoreToDefault_state (m : LogManager) :
    m.restoreToDefault.mConsoleLoggingEnabled = true ∧
    m.restoreToDefault.mFileLoggingEnabled = false ∧
    m.restoreToDefault.mSystemLoggingEnabled = false ∧
    m.restoreToDefault.mBreakOnLogEnabled = false ∧
    m.restoreToDefault.chain = [Sink.console] := by
  refine ⟨rfl, rfl, rfl, rfl, rfl⟩

/-! LoggerFile.  The header declares the members (file path, folder path,
daily format string, last-seen day-of-year, append and rotating flags, and
the output stream); the constructor and `write` bodies are in the
translation unit, which is not part of this repository slice.  The header
comment on the rotating constructor reads: "daily rotating logger, if
folder or format are empty, ignores request". -/

/-- File sink state, from the members of `class LoggerFile` in the header.
`mStream` models the contents written into the currently open stream. -/
structure LoggerFile where
  mFilePath : String
  mFolderPath : String
  mDailyFormatStr : String
  mYearDay : Nat
  mAppend : Bool
  mRotating : Bool
  mStream : List String
deriving DecidableEq, Repr

/-- Resolution of the daily filename from the format template and the
current day-of-year: an external date-formatting collaborator, abstracted. -/
def resolveDailyName (formatStr : String) (yearDay : Nat) : String :=
  formatStr ++ "." ++ toString yearDay

/-- Modelled from the spec: the rotating-mode constructor
`LoggerFile( folder, formatStr, appendToExisting )` is not in the header.
Per the header comment and the spec, an empty folder or empty format
template makes it ignore the rotation request (rotation disabled instead of
failing); otherwise rotation is armed with the resolved daily file path. -/
def LoggerFile.makeRotating (folder formatStr : String)
    (appendToExisting : Bool) (today : Nat) : LoggerFile :=
  if folder.isEmpty || formatStr.isEmpty then
    { mFilePath := ""
    , mFolderPath := folder
    , mDailyFormatStr := formatStr
    , mYearDay := today
    , mAppend := appendToExisting
    , mRotating := false
    , mStream := [] }
  else
    { mFilePath := folder ++ "/" ++ resolveDailyName formatStr today
    , mFolderPath := folder
    , mDailyFormatStr := formatStr
    , mYearDay := today
    , mAppend := appendToExisting
    , mRotating := true
    , mStream := [] }

/-- Modelled from the spec: `LoggerFile::write` is not in the header.  Per
the spec, on each write, if rotating and the current day-of-year differs
from the last-recorded one, the sink reopens under the newly resolved daily
name and updates the recorded day (a rotation); otherwise it writes into
whatever stream is already open.  The returned flag records whether this
write rotated. -/
def LoggerFile.write (f : LoggerFile) (today : Nat) (text : String) :
    LoggerFile × Bool :=
  if f.mRotating && (today != f.mYearDay) then
    ({ f with mFilePath := f.mFolderPath ++ "/" ++
                resolveDailyName f.mDailyFormatStr today
            , mYearDay := today
            , mStream := [text] }, true)
  else
    ({ f with mStream := f.mStream ++ [text] }, false)

/-- A sequence of writes (day-of-year, text), returning the final sink
state and the number of rotations performed. -/
def LoggerFile.writeAll (f : LoggerFile) (ws : List (Nat × String)) :
    LoggerFile × Nat :=
  match ws with
  | [] => (f, 0)
  | w :: rest =>
      let r := f.write w.1 w.2
      let rec' := (r.1).writeAll rest
      (rec'.1, (if r.2 then 1 else 0) + rec'.2)

theorem LoggerFile.write_not_rotating (f : LoggerFile) (today : Nat)
    (text : String) (h : f.mRotating = false) :
    f.write today text = ({ f with mStream := f.mStream ++ [text] }, false) := by
  rw [LoggerFile.write, if_neg]
  simp [h]

theorem LoggerFile.writeAll_not_rotating (f : LoggerFile)
    (ws : List (Nat × String)) (h : f.mRotating = false) :
    (f.writeAll ws).2 = 0 ∧
    (f.writeAll ws).1.mStream = f.mStream ++ ws.map Prod.snd ∧
    (f.writeAll ws).1.mFilePath = f.mFilePath := by
  induction ws generalizing f with
  | nil => simp [LoggerFile.writeAll]
  | cons w rest ih =>
      rw [LoggerFile.writeAll]
      rw [LoggerFile.write_not_rotating f w.1 w.2 h]
      have ih' := ih { f with mStream := f.mStream ++ [w.2] } h
      simp only [ih'.1, ih'.2.1, ih'.2.2]
      simp

/-- C8: a File sink constructed in rotating mode with an empty folder path
or an empty filename format template performs no rotation on any write;
every subsequent write still succeeds, appending its text to whatever
stream is already open, and the file path never changes. -/
theorem loggerFile_empty_rotating_degrades (folder formatStr : String)
    (appendToExisting : Bool) (today : Nat) (ws : List (Nat × String))
    (h : folder = "" ∨ formatStr = "") :
    ((LoggerFile.makeRotating folder formatStr appendToExisting today).writeAll ws).2 = 0 ∧
    ((LoggerFile.makeRotating folder formatStr appendToExisting today).writeAll ws).1.mStream =
      ws.map Prod.snd := by
  have hempty : (folder.isEmpty || formatStr.isEmpty) = true := by
    rcases h with h | h <;> simp [h, String.isEmpty]
  have hrot : (LoggerFile.makeRotating folder formatStr appendToExisting today).mRotating = false := by
    rw [LoggerFile.makeRotating, if_pos hempty]
  have hstream : (LoggerFile.makeRotating folder formatStr appendToExisting today).mStream = [] := by
    rw [LoggerFile.makeRotating, if_pos hempty]
  have hall := LoggerFile.writeAll_not_rotating
    (LoggerFile.makeRotating folder formatStr appendToExisting today) ws hrot
  refine ⟨hall.1, ?_⟩
  rw [hall.2.1, hstream]
  simp

/-- Witness for `loggerFile_empty_rotating_degrades`: empty folder, writes
on two different days. -/
theorem loggerFile_empty_rotating_degrades_witness :
    (("" : String) = "" ∨ ("fmt" : String) = "") ∧
    (((LoggerFile.makeRotating "" "fmt" true 10).writeAll
        [(10, "a"), (11, "b")]).2 = 0 ∧
     ((LoggerFile.makeRotating "" "fmt" true 10).writeAll
        [(10, "a"), (11, "b")]).1.mStream = ["a", "b"]) :=
  ⟨Or.inl rfl,
   loggerFile_empty_rotating_degrades "" "fmt" true 10
     [(10, "a"), (11, "b")] (Or.inl rfl)⟩

end CinderLog
